import Mathlib

/-!
Shallow Lean embedding of the pytest-selenium-framework repository
(configuration manager, driver factory, base page, screenshot helper,
test-runner entry point), together with theorems settling the spec
claims about it.  Python dicts are association lists, JSON values are
an inductive type, exceptions are an explicit sum, and side effects
(logging, subprocess spawns, file writes) are explicit event traces.
-/

namespace PySelFW

/-- JSON values as produced by Python's `json.load`. -/
inductive Json where
  | null : Json
  | bool (b : Bool) : Json
  | num (n : Int) : Json
  | str (s : String) : Json
  | arr (xs : List Json) : Json
  | obj (kvs : List (String × Json)) : Json

/-- A Python dict with string keys and JSON values, as an association list
in insertion order. -/
abbrev Dict := List (String × Json)

/-- `d.get(k)` / `d[k]` lookup on a Python dict. -/
def dictGet (d : Dict) (k : String) : Option Json :=
  match d with
  | [] => none
  | (k', v) :: rest => if k' = k then some v else dictGet rest k

/-- `d.get(k, default)` on a Python dict. -/
def dictGetD (d : Dict) (k : String) (v : Json) : Json :=
  (dictGet d k).getD v

/-- `d[k] = v` on a Python dict: replaces in place if the key exists,
appends otherwise (Python dicts preserve insertion order). -/
def dictSet (d : Dict) (k : String) (v : Json) : Dict :=
  match d with
  | [] => [(k, v)]
  | (k', v') :: rest =>
    if k' = k then (k', v) :: rest else (k', v') :: dictSet rest k v

/-- `d1.update(d2)` on Python dicts. -/
def dictUpdate (d1 d2 : Dict) : Dict :=
  d2.foldl (fun acc kv => dictSet acc kv.1 kv.2) d1

/-- Python truthiness of a string (`if s:`): empty string is falsy. -/
def truthyStr (s : String) : Bool := s ≠ ""

/-- Log levels used by the `logging` calls in the framework. -/
inductive LogLevel where
  | debug | info | warning | error
  deriving DecidableEq, Repr

/-- The exception kinds that the embedded code can raise. -/
inductive PyExc where
  | configLoadError
  | driverInitError
  | valueError
  | timeoutExc
  | otherError
  deriving DecidableEq, Repr

/-- Result of running a piece of Python code: a value or a raised exception. -/
inductive PyResult (α : Type) where
  | ok (a : α) : PyResult α
  | raise (e : PyExc) : PyResult α
  deriving DecidableEq, Repr

/-- Observable side effects of the embedded code. -/
inductive Eff where
  | log (lvl : LogLevel)
  | screenshot (name : String)
  | spawn (cmd : String)
  | download (name : String)
  | savePng (path : String)
  | writeText (path : String)
  | attach (name : String)
  | mkdir (path : String)
  deriving DecidableEq, Repr

/-- `os.path.join(a, b)` for a relative `b` (Python drops an empty head). -/
def joinPath (a b : String) : String :=
  if a = "" then b else a ++ "/" ++ b

/-- `os.path.basename`. -/
def basename (p : String) : String :=
  match (p.splitOn "/").reverse with
  | [] => ""
  | x :: _ => x

/-- `os.path.dirname`. -/
def dirname (p : String) : String :=
  String.intercalate "/" (p.splitOn "/").dropLast

/-! ## ConfigManager (src/utilities/config_manager.py) -/

/-- Abstract state of one configuration file on disk, at the granularity
`_load_config_file` distinguishes: absent (`os.path.exists` false), present
but unreadable (open/read raises an OSError-like exception), present but
malformed (`json.load` raises `JSONDecodeError`), or present with a parsed
JSON value. -/
inductive FileState where
  | absent : FileState
  | unreadable : FileState
  | malformed : FileState
  | valid (d : Json) : FileState

namespace ConfigManager

/-- `ConfigManager._load_config_file(file_path, description)`: returns the
parsed data, or `{}` with a warning when the file is absent, and raises
`ConfigLoadError` when the file is present but malformed or unreadable. -/
def load_config_file (fs : FileState) : PyResult Json × List Eff :=
  match fs with
  | .valid d => (.ok d, [.log .info])
  | .absent => (.ok (Json.obj []), [.log .warning])
  | .malformed => (.raise .configLoadError, [.log .error])
  | .unreadable => (.raise .configLoadError, [.log .error])

/-- The fields a fully initialized `ConfigManager` instance holds after
`_load_all_configs`. -/
structure Fields where
  config : Dict
  env_config : Dict
  test_data : Dict
  browser_config : Dict

/-- Contents of the three configuration files on disk
(`config/config.json`, `config/environments.json`, `data/fixtures.json`). -/
structure DiskConfigs where
  configFile : FileState
  envFile : FileState
  dataFile : FileState

/-- Coerce a loaded JSON document to the dict the manager stores
(`json.load` of an object file yields a dict; the manager then indexes it). -/
def asDict (j : Json) : Dict :=
  match j with
  | .obj kvs => kvs
  | _ => []

/-- `ConfigManager._load_all_configs`: loads the main config, extracts the
`browser` section, then loads environment config and test data; the first
`ConfigLoadError` propagates. -/
def load_all_configs (disk : DiskConfigs) : PyResult Fields :=
  match (load_config_file disk.configFile).1 with
  | .raise e => .raise e
  | .ok cfg =>
    let config := asDict cfg
    let browser_config := asDict (dictGetD config "browser" (Json.obj []))
    match (load_config_file disk.envFile).1 with
    | .raise e => .raise e
    | .ok env =>
      match (load_config_file disk.dataFile).1 with
      | .raise e => .raise e
      | .ok data =>
        .ok { config := config, env_config := asDict env,
              test_data := asDict data, browser_config := browser_config }

/-- Class-level state of the singleton: `_instance` (by identity number),
`_initialized`, the loaded fields, plus instrumentation counting how many
times the configuration files were read from disk. -/
structure ClassState where
  instId : Option Nat
  initDone : Bool
  stored : Option Fields
  nextId : Nat
  diskReads : Nat

/-- The class state before any `ConfigManager()` call. -/
def initialState : ClassState :=
  { instId := none, initDone := false, stored := none,
    nextId := 0, diskReads := 0 }

/-- `ConfigManager.__new__`: returns the cached `_instance` or allocates a
new one. -/
def new (s : ClassState) : Nat × ClassState :=
  match s.instId with
  | some i => (i, s)
  | none => (s.nextId, { s with instId := some s.nextId, nextId := s.nextId + 1 })

/-- `ConfigManager.__init__` on instance `i`: loads all configuration files
only when `_initialized` is still false; a `ConfigLoadError` from the loads
propagates and leaves `_initialized` false. -/
def instInit (disk : DiskConfigs) (i : Nat) (s1 : ClassState) :
    PyResult Nat × ClassState :=
  if s1.initDone then (.ok i, s1)
  else
    match load_all_configs disk with
    | .ok fields =>
      (.ok i, { s1 with initDone := true, stored := some fields,
                        diskReads := s1.diskReads + 1 })
    | .raise e => (.raise e, { s1 with diskReads := s1.diskReads + 1 })

/-- `ConfigManager()`: `__new__` followed by `__init__`.  Returns the
instance id (or the propagated `ConfigLoadError`) and the new class state. -/
def construct (disk : DiskConfigs) (s : ClassState) : PyResult Nat × ClassState :=
  instInit disk (new s).1 (new s).2

/-- Disk contents where all three configuration files parse to empty
objects; used to instantiate the singleton theorems. -/
def sampleDisk : DiskConfigs :=
  { configFile := .valid (Json.obj []), envFile := .valid (Json.obj []),
    dataFile := .valid (Json.obj []) }

/-- The class state after one successful `ConfigManager()` on `sampleDisk`. -/
def sampleLoadedState : ClassState :=
  { instId := some 0, initDone := true,
    stored := some { config := [], env_config := [], test_data := [],
                     browser_config := [] },
    nextId := 1, diskReads := 1 }

/-- `ConfigManager.get_config`. -/
def get_config (f : Fields) : Dict := f.config

/-- `ConfigManager.get_test_data`. -/
def get_test_data (f : Fields) : Dict := f.test_data

/-- `ConfigManager.get_browser_config(browser)` on the loaded browser
section: with a (truthy) browser name, merges the hard defaults — whose
`implicit_wait` and `window_size` are themselves looked up in the loaded
browser section — with the browser's own entry; otherwise returns the whole
browser section. -/
def get_browser_config (browser_config : Dict) (browser : Option String) : Dict :=
  match browser with
  | some b =>
    if truthyStr b then
      let browser_specific := asDict (dictGetD browser_config b (Json.obj []))
      let default_config : Dict :=
        [("implicit_wait", dictGetD browser_config "implicit_wait" (Json.num 10)),
         ("arguments", Json.arr []),
         ("preferences", Json.obj []),
         ("window_size", dictGetD browser_config "window_size"
            (Json.obj [("width", Json.num 1920), ("height", Json.num 1080)]))]
      dictUpdate default_config browser_specific
    else browser_config
  | none => browser_config

/-- `ConfigManager.get_env_config(env)`. -/
def get_env_config (env_config : Dict) (env : Option String) : Dict :=
  match env with
  | some e =>
    if truthyStr e then
      let envs := asDict (dictGetD env_config "environments" (Json.obj []))
      asDict (dictGetD envs e (Json.obj []))
    else asDict (dictGetD env_config "default" (Json.obj []))
  | none => asDict (dictGetD env_config "default" (Json.obj []))

/-- The record the spec calls "the hard-coded default record":
`implicit_wait=10`, empty arguments, empty preferences, 1920×1080.
Written from the spec's words, for comparison with `get_browser_config`. -/
def specHardCodedDefault : Dict :=
  [("implicit_wait", Json.num 10),
   ("arguments", Json.arr []),
   ("preferences", Json.obj []),
   ("window_size", Json.obj [("width", Json.num 1920), ("height", Json.num 1080)])]

end ConfigManager

/-! ## DriverFactory (src/utilities/driver_factory.py) -/

/-- Host platform (the factory itself never inspects it, but the spec's
Edge claims quantify over it). -/
inductive Platform where
  | armMac | intelMac | linux | windows
  deriving DecidableEq, Repr

namespace DriverFactory

/-- Outcomes of the external calls the factory makes: PATH probes,
webdriver-manager installs, filesystem checks, and browser startup. -/
structure Env where
  platform : Platform
  inPath : String → Bool
  installResult : String → PyResult String
  isDir : String → Bool
  pathExists : String → Bool
  execOk : String → Bool
  chmodOk : String → Bool
  startBrowser : String → PyResult Unit
  configureOk : Bool

/-- The live WebDriver session the factory hands back. -/
structure Session where
  browser : String
  headless : Bool
  arguments : List String

/-- `DriverFactory._check_driver_in_path(driver_name)`: runs
`<driver_name> --version` as a subprocess and reports whether it
succeeded. -/
def check_driver_in_path (env : Env) (driver_name : String) : Bool × List Eff :=
  (env.inPath driver_name,
   [.spawn (driver_name ++ " --version"), .log .debug])

/-- `DriverFactory._get_driver_path(driver_manager, driver_name)`:
installs via webdriver-manager, locates the real binary next to the
returned path, checks existence and makes it executable. -/
def get_driver_path (env : Env) (driver_name : String) : PyResult String × List Eff :=
  match env.installResult driver_name with
  | .raise _ => (.raise .driverInitError, [.download driver_name, .log .error])
  | .ok driver_path =>
    let effs0 : List Eff := [.download driver_name, .log .info]
    let actual_path :=
      if env.isDir driver_path then joinPath driver_path driver_name
      else if basename driver_path = driver_name then driver_path
      else joinPath (dirname driver_path) driver_name
    if env.pathExists actual_path then
      if env.execOk actual_path then (.ok actual_path, effs0)
      else if env.chmodOk actual_path then (.ok actual_path, effs0 ++ [.log .debug])
      else (.ok actual_path, effs0 ++ [.log .warning])
    else (.raise .driverInitError, effs0 ++ [.log .error])

/-- The string arguments of a configured `arguments` JSON array. -/
def jsonArgs (j : Json) : List String :=
  match j with
  | .arr xs => xs.filterMap (fun v => match v with | .str s => some s | _ => none)
  | _ => []

/-- `DriverFactory._configure_driver`: applies window size and implicit wait;
a failure is logged as a warning and not raised. -/
def configure_driver (env : Env) : List Eff :=
  if env.configureOk then [.log .debug, .log .debug] else [.log .warning]

/-- `DriverFactory._create_chrome_driver(headless, config)`. -/
def create_chrome_driver (env : Env) (headless : Bool) (config : Dict) :
    PyResult Session × List Eff :=
  let args := (if headless then ["--headless=new"] else [])
              ++ jsonArgs (dictGetD config "arguments" (Json.arr []))
  let session : Session := { browser := "chrome", headless := headless, arguments := args }
  let (found, ef1) := check_driver_in_path env "chromedriver"
  if found then
    match env.startBrowser "chrome" with
    | .ok _ => (.ok session, ef1 ++ [.spawn "chrome"] ++ configure_driver env)
    | .raise _ => (.raise .driverInitError, ef1 ++ [.spawn "chrome", .log .error])
  else
    match get_driver_path env "chromedriver" with
    | (.raise _, ef2) => (.raise .driverInitError, ef1 ++ ef2 ++ [.log .error])
    | (.ok _, ef2) =>
      match env.startBrowser "chrome" with
      | .ok _ => (.ok session, ef1 ++ ef2 ++ [.spawn "chrome"] ++ configure_driver env)
      | .raise _ => (.raise .driverInitError, ef1 ++ ef2 ++ [.spawn "chrome", .log .error])

/-- `DriverFactory._create_firefox_driver(headless, config)`. -/
def create_firefox_driver (env : Env) (headless : Bool) (config : Dict) :
    PyResult Session × List Eff :=
  let args := (if headless then ["--headless"] else [])
              ++ jsonArgs (dictGetD config "arguments" (Json.arr []))
  let session : Session := { browser := "firefox", headless := headless, arguments := args }
  let (found, ef1) := check_driver_in_path env "geckodriver"
  if found then
    match env.startBrowser "firefox" with
    | .ok _ => (.ok session, ef1 ++ [.spawn "firefox"] ++ configure_driver env)
    | .raise _ => (.raise .driverInitError, ef1 ++ [.spawn "firefox", .log .error])
  else
    match get_driver_path env "geckodriver" with
    | (.raise _, ef2) => (.raise .driverInitError, ef1 ++ ef2 ++ [.log .error])
    | (.ok _, ef2) =>
      match env.startBrowser "firefox" with
      | .ok _ => (.ok session, ef1 ++ ef2 ++ [.spawn "firefox"] ++ configure_driver env)
      | .raise _ => (.raise .driverInitError, ef1 ++ ef2 ++ [.spawn "firefox", .log .error])

/-- `DriverFactory.create_driver(browser, headless, browser_config)`:
dispatches on the browser name; every name other than `"chrome"` and
`"firefox"` (Edge included — only a TODO in the source) raises
`ValueError` with no side effect. -/
def create_driver (env : Env) (browser : String) (headless : Bool)
    (browser_config : Option Dict) : PyResult Session × List Eff :=
  let config := browser_config.getD []
  if browser = "chrome" then create_chrome_driver env headless config
  else if browser = "firefox" then create_firefox_driver env headless config
  else (.raise .valueError, [])

/-- A concrete environment used to instantiate universally quantified
theorems about the factory. -/
def sampleEnv : Env :=
  { platform := .armMac
    inPath := fun _ => false
    installResult := fun _ => .ok "/drivers/chromedriver"
    isDir := fun _ => false
    pathExists := fun _ => true
    execOk := fun _ => true
    chmodOk := fun _ => true
    startBrowser := fun _ => .ok ()
    configureOk := true }

end DriverFactory

/-! ## run_tests.py entry point -/

namespace RunTestsPy

/-- `run_tests(...)` in src/run_tests.py: invokes `pytest.main` and returns
`True` whenever it returns (its exit status, failing tests included, is
discarded); returns `False` only when `pytest.main` raises. -/
def run_tests (pytestResult : PyResult Int) : Bool :=
  match pytestResult with
  | .ok _ => true
  | .raise _ => false

/-- `main()` in src/run_tests.py: runs the system check unless skipped and
returns 1 when it fails, then runs the tests and maps `run_tests`'s boolean
to the exit code. -/
def main (skipSystemCheck systemCheckPasses : Bool)
    (pytestResult : PyResult Int) : Int :=
  if !skipSystemCheck && !systemCheckPasses then 1
  else if run_tests pytestResult then 0 else 1

end RunTestsPy

/-! ## BasePage (src/pages/base_page.py) -/

namespace BasePage

/-- Outcome of a `WebDriverWait(...).until(...)` call: the located value,
or a `TimeoutException`. -/
inductive Wait (α : Type) where
  | found (a : α) : Wait α
  | timeout : Wait α

/-- Opaque WebElement handles. -/
abbrev Elem := Nat

/-- `BasePage.find_element`: on timeout, logs the error, takes a diagnostic
screenshot and re-raises the `TimeoutException`. -/
def find_element (value : String) (w : Wait Elem) : PyResult Elem × List Eff :=
  match w with
  | .found e => (.ok e, [.log .debug])
  | .timeout =>
    (.raise .timeoutExc,
     [.log .debug, .log .error, .screenshot ("element_not_found_" ++ value)])

/-- `BasePage.find_elements`: on timeout, logs at debug level and returns
the empty list. -/
def find_elements (_value : String) (w : Wait (List Elem)) :
    PyResult (List Elem) × List Eff :=
  match w with
  | .found es => (.ok es, [.log .debug])
  | .timeout => (.ok [], [.log .debug, .log .debug])

/-- `BasePage.is_element_visible`: on timeout, logs the error, takes a
screenshot and returns `False`. -/
def is_element_visible (value : String) (w : Wait Elem) : PyResult Bool × List Eff :=
  match w with
  | .found _ => (.ok true, [.log .debug])
  | .timeout =>
    (.ok false,
     [.log .debug, .log .error, .screenshot ("element_not_visible_" ++ value)])

/-- `BasePage.is_element_clickable`: on timeout, logs at debug level and
returns `False`. -/
def is_element_clickable (_value : String) (w : Wait Elem) : PyResult Bool × List Eff :=
  match w with
  | .found _ => (.ok true, [.log .debug])
  | .timeout => (.ok false, [.log .debug, .log .debug])

/-- `BasePage.click`: on timeout, logs the error, takes a screenshot and
re-raises the `TimeoutException`. -/
def click (value : String) (w : Wait Elem) : PyResult Unit × List Eff :=
  match w with
  | .found _ => (.ok (), [.log .debug])
  | .timeout =>
    (.raise .timeoutExc,
     [.log .debug, .log .error, .screenshot ("click_failed_" ++ value)])

end BasePage

/-! ## ScreenshotHelper (src/utilities/screenshot_helper.py) -/

namespace ScreenshotHelper

/-- The helper instance: the driver it wraps and the screenshots directory
it resolved at construction. -/
structure Helper where
  driver : Nat
  screenshot_dir : String

/-- The directory `ScreenshotHelper.__init__` computes from the project
root: `<root>/reports/screenshots`. -/
def intendedDir (project_root : String) : String :=
  joinPath (joinPath project_root "reports") "screenshots"

/-- `ScreenshotHelper.__init__(driver)`: resolves the screenshots directory,
attempts to create it, and catches the `OSError` (logging a warning) if the
creation fails; the helper is returned either way. -/
def init (driver : Nat) (project_root : String) (mkdirFails : Bool) :
    PyResult Helper × List Eff :=
  let dir := intendedDir project_root
  (.ok { driver := driver, screenshot_dir := dir },
   [.mkdir dir] ++ if mkdirFails then [.log .warning] else [])

/-- The file path `ScreenshotHelper.take_screenshot(name)` returns:
`<dir>/<name>_<timestamp>.png` (`<dir>/screenshot_<timestamp>.png` when no
name is given), with `timestamp = datetime.now().strftime("%Y%m%d_%H%M%S")`
— second granularity, no disambiguating suffix. -/
def take_screenshot_path (dir : String) (name : Option String) (timestamp : String) :
    String :=
  match name with
  | some n => joinPath dir (n ++ "_" ++ timestamp ++ ".png")
  | none => joinPath dir ("screenshot_" ++ timestamp ++ ".png")

/-- `ScreenshotHelper.take_failure_screenshot(test_name, error_msg)`:
saves `failure_<test>_<timestamp>.png`, attaches it to Allure, and — when
`error_msg` is truthy — writes the text to
`failure_<test>_<timestamp>_error.txt` and attaches it too. -/
def take_failure_screenshot (dir test_name timestamp : String)
    (error_msg : Option String) : String × List Eff :=
  let filename := "failure_" ++ test_name ++ "_" ++ timestamp ++ ".png"
  let screenshot_path := joinPath dir filename
  let base : List Eff :=
    [.savePng screenshot_path, .log .info, .attach ("Screenshot - " ++ test_name)]
  let truthy := match error_msg with | some m => truthyStr m | none => false
  if truthy then
    let error_filename := "failure_" ++ test_name ++ "_" ++ timestamp ++ "_error.txt"
    let error_path := joinPath dir error_filename
    (screenshot_path,
     base ++ [.writeText error_path, .attach ("Error Log - " ++ test_name), .log .info])
  else (screenshot_path, base)

/-- `ScreenshotHelper.take_pass_screenshot(test_name)`: saves
`pass_<test>_<timestamp>.png` and attaches it to Allure. -/
def take_pass_screenshot (dir test_name timestamp : String) : String × List Eff :=
  let filename := "pass_" ++ test_name ++ "_" ++ timestamp ++ ".png"
  let screenshot_path := joinPath dir filename
  (screenshot_path,
   [.savePng screenshot_path, .log .info,
    .attach ("Screenshot - " ++ test_name ++ " (Passed)")])

end ScreenshotHelper

/-! ## Helper lemmas -/

theorem string_append_inj_left (a : String) {b c : String} :
    a ++ b = a ++ c ↔ b = c := by
  constructor
  · intro h
    apply String.ext
    have hd := congrArg String.data h
    rw [String.data_append, String.data_append] at hd
    exact List.append_cancel_left hd
  · intro h
    rw [h]

theorem string_append_inj_right {a b : String} (c : String) :
    a ++ c = b ++ c ↔ a = b := by
  constructor
  · intro h
    apply String.ext
    have hd := congrArg String.data h
    rw [String.data_append, String.data_append] at hd
    exact List.append_cancel_right hd
  · intro h
    rw [h]

theorem ConfigManager.new_spec (s : ConfigManager.ClassState) :
    (ConfigManager.new s).2.instId = some (ConfigManager.new s).1 ∧
    (ConfigManager.new s).2.initDone = s.initDone := by
  cases h : s.instId <;> simp [ConfigManager.new, h]

theorem ConfigManager.instInit_ok {disk : ConfigManager.DiskConfigs}
    {i i1 : Nat} {s1 s2 : ConfigManager.ClassState}
    (h : ConfigManager.instInit disk i s1 = (.ok i1, s2)) :
    i1 = i ∧ s2.initDone = true ∧ s2.instId = s1.instId := by
  unfold ConfigManager.instInit at h
  split at h
  · next hdone =>
    cases h
    exact ⟨rfl, hdone, rfl⟩
  · next hdone =>
    split at h
    · cases h
      exact ⟨rfl, rfl, rfl⟩
    · simp at h

theorem ConfigManager.construct_ok {disk : ConfigManager.DiskConfigs}
    {s s1 : ConfigManager.ClassState} {i1 : Nat}
    (h : ConfigManager.construct disk s = (.ok i1, s1)) :
    s1.initDone = true ∧ s1.instId = some i1 := by
  unfold ConfigManager.construct at h
  obtain ⟨hi, hdone, hinst⟩ := ConfigManager.instInit_ok h
  refine ⟨hdone, ?_⟩
  rw [hinst, (ConfigManager.new_spec s).1, hi]

theorem ConfigManager.construct_stable (disk : ConfigManager.DiskConfigs)
    {s1 : ConfigManager.ClassState} {i1 : Nat}
    (hdone : s1.initDone = true) (hinst : s1.instId = some i1) :
    ConfigManager.construct disk s1 = (.ok i1, s1) := by
  unfold ConfigManager.construct ConfigManager.new ConfigManager.instInit
  rw [hinst]
  simp [hdone]

/-! ## Claim theorems -/

/-- C1: `ConfigManager._load_config_file` raises `ConfigLoadError` exactly
when the file exists but is malformed JSON or unreadable; an absent file
yields the empty mapping with a logged warning instead of raising, and a
valid file returns its parsed contents. -/
theorem c1_load_config_file_failure_semantics :
    ∀ fs : FileState,
      ((ConfigManager.load_config_file fs).1 = .raise .configLoadError ↔
        (fs = .malformed ∨ fs = .unreadable)) ∧
      (ConfigManager.load_config_file .absent =
        (.ok (Json.obj []), [.log .warning])) ∧
      (∀ d, ConfigManager.load_config_file (.valid d) = (.ok d, [.log .info])) := by
  intro fs
  refine ⟨?_, rfl, fun d => rfl⟩
  cases fs <;> simp [ConfigManager.load_config_file]

/-- C2 counterexample: when the loaded browser section carries a top-level
`implicit_wait` key (here 20), a name with no entry ("safari") does not get
the hard-coded default record — the default's `implicit_wait` is looked up
in the loaded section rather than fixed at 10. -/
theorem c2_counterexample :
    dictGet [("implicit_wait", Json.num 20)] "safari" = none ∧
    ConfigManager.get_browser_config [("implicit_wait", Json.num 20)]
        (some "safari") ≠
      ConfigManager.specHardCodedDefault := by
  refine ⟨rfl, fun h => ?_⟩
  have h2 : (some (Json.num 20) : Option Json) = some (Json.num 10) :=
    congrArg (fun d => dictGet d "implicit_wait") h
  injection h2 with h3
  injection h3 with h4
  exact absurd h4 (by decide)

/-- C2 (amended): for a nonempty browser name with no entry in the loaded
browser section, `get_browser_config` returns exactly the hard-coded default
record provided the section also has no top-level `implicit_wait` or
`window_size` keys (those keys, when present, replace the hard-coded
defaults). -/
theorem c2_browser_default_amended (cfg : Dict) (b : String)
    (hb : truthyStr b = true)
    (habsent : dictGet cfg b = none)
    (hiw : dictGet cfg "implicit_wait" = none)
    (hws : dictGet cfg "window_size" = none) :
    ConfigManager.get_browser_config cfg (some b) =
      ConfigManager.specHardCodedDefault := by
  simp [ConfigManager.get_browser_config, hb, ConfigManager.asDict, dictGetD,
        habsent, hiw, hws, dictUpdate, ConfigManager.specHardCodedDefault]

/-- Witness for C2 (amended) at a concrete browser section and name. -/
theorem c2_browser_default_amended_witness :
    ConfigManager.get_browser_config
        [("chrome", Json.obj [("headless", Json.bool true)])] (some "safari") =
      ConfigManager.specHardCodedDefault :=
  c2_browser_default_amended
    [("chrome", Json.obj [("headless", Json.bool true)])] "safari"
    (by decide) rfl rfl rfl

/-- C3: for every browser name other than "chrome" and "firefox",
`create_driver` raises `ValueError` with an empty effect trace — in
particular no subprocess is spawned and no driver download is attempted. -/
theorem c3_unsupported_browser_no_spawn (env : DriverFactory.Env)
    (browser : String) (headless : Bool) (cfg : Option Dict)
    (h1 : browser ≠ "chrome") (h2 : browser ≠ "firefox") :
    DriverFactory.create_driver env browser headless cfg =
      (.raise .valueError, []) := by
  simp [DriverFactory.create_driver, h1, h2]

/-- Witness for C3 at browser name "safari". -/
theorem c3_unsupported_browser_no_spawn_witness :
    DriverFactory.create_driver DriverFactory.sampleEnv "safari" true (some []) =
      (.raise .valueError, []) :=
  c3_unsupported_browser_no_spawn DriverFactory.sampleEnv "safari" true (some [])
    (by decide) (by decide)

/-- C4: with the system check passing and `pytest.main` returning exit
status 1 (at least one failing test), `run_tests` still returns True and
`main` returns 0 — the code discards pytest's exit status, contrary to the
claim and to `main`'s own docstring; the remaining conjuncts record the
parts of the claim the code does satisfy. -/
theorem c4_exit_code_on_test_failure :
    RunTestsPy.run_tests (.ok 1) = true ∧
    RunTestsPy.main false true (.ok 1) = 0 ∧
    RunTestsPy.main false false (.ok 0) = 1 ∧
    RunTestsPy.main false true (.raise .otherError) = 1 ∧
    RunTestsPy.main false true (.ok 0) = 0 :=
  ⟨rfl, rfl, rfl, rfl, rfl⟩

/-- C5 counterexample: on ARM macOS requesting an Edge driver raises
`ValueError` — neither a Chrome-backed session nor a
`DriverInitializationError`. -/
theorem c5_counterexample :
    DriverFactory.create_driver DriverFactory.sampleEnv "edge" false none =
      (.raise .valueError, []) ∧
    DriverFactory.sampleEnv.platform = Platform.armMac ∧
    PyExc.valueError ≠ PyExc.driverInitError :=
  ⟨rfl, rfl, by decide⟩

/-- C5 (amended): on every platform, ARM macOS included, requesting an Edge
driver raises `ValueError` synchronously with no side effects; the factory
has no Edge fallback path (Edge support is only a TODO in the source). -/
theorem c5_edge_raises_value_error (env : DriverFactory.Env) (headless : Bool)
    (cfg : Option Dict) :
    DriverFactory.create_driver env "edge" headless cfg =
      (.raise .valueError, []) := rfl

/-- C6: once a `ConfigManager()` construction has succeeded, every later
construction returns the same instance and leaves the class state unchanged
(no configuration file is re-read and the cached values the getters read are
identical), and a construction from the initial class state reads the
configuration files from disk exactly once. -/
theorem c6_singleton_load_once (disk disk2 : ConfigManager.DiskConfigs)
    (s s1 s2 : ConfigManager.ClassState) (i1 i2 : Nat)
    (h1 : ConfigManager.construct disk s = (.ok i1, s1))
    (h2 : ConfigManager.construct disk2 s1 = (.ok i2, s2)) :
    i2 = i1 ∧ s2 = s1 ∧
    (ConfigManager.construct disk ConfigManager.initialState).2.diskReads = 1 := by
  obtain ⟨hdone, hinst⟩ := ConfigManager.construct_ok h1
  have hstable := ConfigManager.construct_stable disk2 hdone hinst
  rw [hstable] at h2
  injection h2 with ha hb
  injection ha with ha2
  refine ⟨ha2.symm, hb.symm, ?_⟩
  unfold ConfigManager.construct ConfigManager.new ConfigManager.instInit
    ConfigManager.initialState
  cases hl : ConfigManager.load_all_configs disk <;> simp [hl]

/-- Witness for C6 at a concrete disk, starting from the initial state. -/
theorem c6_singleton_load_once_witness :
    0 = 0 ∧ ConfigManager.sampleLoadedState = ConfigManager.sampleLoadedState ∧
    (ConfigManager.construct ConfigManager.sampleDisk
        ConfigManager.initialState).2.diskReads = 1 :=
  c6_singleton_load_once ConfigManager.sampleDisk ConfigManager.sampleDisk
    ConfigManager.initialState ConfigManager.sampleLoadedState
    ConfigManager.sampleLoadedState 0 0 rfl rfl

/-- C7: the timeout policy is per-operation — `is_element_visible` and
`is_element_clickable` never raise and return False on timeout,
`find_elements` returns the empty list, while `find_element` and `click`
log the error, take a diagnostic screenshot and re-raise the
`TimeoutException`. -/
theorem c7_timeout_policy (value : String) :
    (∀ w, ∃ b, (BasePage.is_element_visible value w).1 = .ok b) ∧
    (BasePage.is_element_visible value .timeout).1 = .ok false ∧
    (∀ w, ∃ b, (BasePage.is_element_clickable value w).1 = .ok b) ∧
    (BasePage.is_element_clickable value .timeout).1 = .ok false ∧
    (BasePage.find_elements value .timeout).1 = .ok [] ∧
    BasePage.find_element value .timeout =
      (.raise .timeoutExc,
       [.log .debug, .log .error, .screenshot ("element_not_found_" ++ value)]) ∧
    BasePage.click value .timeout =
      (.raise .timeoutExc,
       [.log .debug, .log .error, .screenshot ("click_failed_" ++ value)]) := by
  refine ⟨?_, rfl, ?_, rfl, rfl, rfl, rfl⟩
  · intro w
    cases w
    · exact ⟨true, rfl⟩
    · exact ⟨false, rfl⟩
  · intro w
    cases w
    · exact ⟨true, rfl⟩
    · exact ⟨false, rfl⟩

/-- C8 counterexample: two captures with the same name whose timestamps fall
in the same second produce the same file path — a collision, since the name
carries only the second-granularity timestamp and no disambiguating
suffix. -/
theorem c8_counterexample :
    ScreenshotHelper.take_screenshot_path (ScreenshotHelper.intendedDir "/proj")
        (some "x") "20250101_120000" =
      ScreenshotHelper.take_screenshot_path (ScreenshotHelper.intendedDir "/proj")
        (some "x") "20250101_120000" ∧
    ScreenshotHelper.take_screenshot_path (ScreenshotHelper.intendedDir "/proj")
        (some "x") "20250101_120000" =
      "/proj/reports/screenshots/x_20250101_120000.png" :=
  ⟨rfl, rfl⟩

/-- C8 (amended): two captures with the same name return distinct paths if
and only if their second-granularity timestamps differ; no disambiguating
suffix is ever added. -/
theorem c8_distinct_iff_timestamps (dir name ts1 ts2 : String) :
    ScreenshotHelper.take_screenshot_path dir (some name) ts1 =
      ScreenshotHelper.take_screenshot_path dir (some name) ts2 ↔ ts1 = ts2 := by
  simp only [ScreenshotHelper.take_screenshot_path, joinPath]
  by_cases hd : dir = ""
  · rw [if_pos hd, if_pos hd, string_append_inj_right, string_append_inj_left]
  · rw [if_neg hd, if_neg hd, string_append_inj_left, string_append_inj_right,
        string_append_inj_left]

/-- C9 counterexample: the persisted error file carries an extra `_error`
suffix, so it does not share the PNG's filename stem and does not follow the
claimed `failure_{test}_{timestamp}.txt` scheme. -/
theorem c9_counterexample :
    (ScreenshotHelper.take_failure_screenshot "/proj/reports/screenshots" "t1"
        "20250101_120000" (some "boom")).1 =
      "/proj/reports/screenshots/failure_t1_20250101_120000.png" ∧
    Eff.writeText
        "/proj/reports/screenshots/failure_t1_20250101_120000_error.txt" ∈
      (ScreenshotHelper.take_failure_screenshot "/proj/reports/screenshots" "t1"
        "20250101_120000" (some "boom")).2 ∧
    Eff.writeText "/proj/reports/screenshots/failure_t1_20250101_120000.txt" ∉
      (ScreenshotHelper.take_failure_screenshot "/proj/reports/screenshots" "t1"
        "20250101_120000" (some "boom")).2 := by
  refine ⟨rfl, by decide, by decide⟩

/-- C9 (amended): for a truthy error message, `take_failure_screenshot`
writes the screenshot to `failure_{test}_{timestamp}.png` and the error text
to the sibling file `failure_{test}_{timestamp}_error.txt` (the PNG stem
plus an `_error` suffix), attaching both; pass screenshots follow
`pass_{test}_{timestamp}.png`. -/
theorem c9_failure_artifacts_amended (dir t ts m : String) (hm : m ≠ "") :
    (ScreenshotHelper.take_failure_screenshot dir t ts (some m)).1 =
      joinPath dir ("failure_" ++ t ++ "_" ++ ts ++ ".png") ∧
    (ScreenshotHelper.take_failure_screenshot dir t ts (some m)).2 =
      [.savePng (joinPath dir ("failure_" ++ t ++ "_" ++ ts ++ ".png")),
       .log .info, .attach ("Screenshot - " ++ t),
       .writeText (joinPath dir ("failure_" ++ t ++ "_" ++ ts ++ "_error.txt")),
       .attach ("Error Log - " ++ t), .log .info] ∧
    (ScreenshotHelper.take_pass_screenshot dir t ts).1 =
      joinPath dir ("pass_" ++ t ++ "_" ++ ts ++ ".png") := by
  have htr : truthyStr m = true := by simp [truthyStr, hm]
  refine ⟨?_, ?_, rfl⟩ <;> simp [ScreenshotHelper.take_failure_screenshot, htr]

/-- Witness for C9 (amended) at concrete arguments. -/
theorem c9_failure_artifacts_amended_witness :
    (ScreenshotHelper.take_failure_screenshot "d" "t" "20250101_120000"
        (some "boom")).1 =
      joinPath "d" ("failure_" ++ "t" ++ "_" ++ "20250101_120000" ++ ".png") ∧
    (ScreenshotHelper.take_failure_screenshot "d" "t" "20250101_120000"
        (some "boom")).2 =
      [.savePng (joinPath "d"
          ("failure_" ++ "t" ++ "_" ++ "20250101_120000" ++ ".png")),
       .log .info, .attach ("Screenshot - " ++ "t"),
       .writeText (joinPath "d"
          ("failure_" ++ "t" ++ "_" ++ "20250101_120000" ++ "_error.txt")),
       .attach ("Error Log - " ++ "t"), .log .info] ∧
    (ScreenshotHelper.take_pass_screenshot "d" "t" "20250101_120000").1 =
      joinPath "d" ("pass_" ++ "t" ++ "_" ++ "20250101_120000" ++ ".png") :=
  c9_failure_artifacts_amended "d" "t" "20250101_120000" "boom" (by decide)

/-- C10: constructing `ScreenshotHelper` never raises — whether or not the
screenshots directory can be created, the helper is returned with
`screenshot_dir` set to the intended path, and a failed creation only logs a
warning. -/
theorem c10_init_never_raises (driver : Nat) (root : String) (mkdirFails : Bool) :
    (ScreenshotHelper.init driver root mkdirFails).1 =
      .ok { driver := driver,
            screenshot_dir := ScreenshotHelper.intendedDir root } ∧
    (ScreenshotHelper.init driver root mkdirFails).2 =
      [.mkdir (ScreenshotHelper.intendedDir root)] ++
        (if mkdirFails then [.log .warning] else []) :=
  ⟨rfl, rfl⟩

end PySelFW
